import Mathlib

/-!
Verification of the command-safety gate and question pipeline of
`cli_agent.py` (class `CLIAgent`).

The Python code's pure decision logic is embedded shallowly:

* `Verdict` mirrors the dictionary returned by
  `SafetyGuardrails.validate_command` (that module is an external
  collaborator of `cli_agent.py`; the claims quantify over arbitrary
  verdicts, so the validator is a function-typed parameter here).
* `RunOutcome` abstracts `subprocess.run`: either a completed process
  (stdout, stderr, return code) or a raised exception message.
* `ModelOutcome` abstracts a `bedrock.invoke_model` round trip keyed by
  the prompt string: either the extracted reply text or a raised
  exception message.
* `Effect` records which external calls a run performs, so that
  "the process executor is never invoked" is a statement about the
  returned trace.
* Python dictionaries whose keys vary by branch (`blocked`,
  `requires_confirmation`, `risk_level`) are embedded with `Option`
  fields, `none` standing for an absent key.
* String helpers (`stripList`, `pySplitWs`, `pyStripChars`, ...) embed
  the exact Python `str` operations used by the source (`strip`,
  `split`, `split('\n')`, `startswith`, `strip('`"\'')`, slicing
  `[:200]`), restricted to the ASCII whitespace the source manipulates.

I/O that the source performs purely for display (`print`) or
persistence (`pickle` save/load, which the source swallows errors from)
is elided; the in-memory `conversation_history` list is threaded
explicitly.
-/

/-- Result dictionary of `SafetyGuardrails.validate_command`. -/
structure Verdict where
  risk_level : String
  allowed : Bool
  requires_confirmation : Bool
  reason : String
  blocked_reason : String
  warnings : List String
deriving DecidableEq

/-- Outcome of `subprocess.run(command, shell=True, ...)`: a completed
process or an exception message caught by `execute_command`. -/
inductive RunOutcome where
  | ok (stdout stderr : String) (returncode : Int)
  | exn (msg : String)
deriving DecidableEq

/-- Outcome of one `bedrock.invoke_model` call, already reduced to the
reply text `result['content'][0]['text']`, or an exception message. -/
inductive ModelOutcome where
  | ok (text : String)
  | exn (msg : String)
deriving DecidableEq

/-- External calls a run performs, in order. -/
inductive Effect where
  | validatorCall (command : String) (working_directory : Option String)
  | executorCall (command : String) (working_directory : Option String)
deriving DecidableEq

/-- Dictionary returned by `CLIAgent.execute_command`. Keys that a
branch of the Python code leaves out are `none`. -/
structure ExecutionResult where
  command : String
  stdout : String
  stderr : String
  return_code : Int
  success : Bool
  blocked : Option Bool
  requires_confirmation : Option Bool
  risk_level : Option String
deriving DecidableEq

/-- Dictionary returned by `CLIAgent.answer_question`;
`raw_output = none` embeds Python `None`. -/
structure AnswerResult where
  question : String
  command_used : String
  answer : String
  raw_output : Option ExecutionResult
  success : Bool
deriving DecidableEq

/-- One entry of `conversation_history` as built by
`CLIAgent._add_to_memory` (`datetime.now().isoformat()` is passed in as
the opaque string `ts`). -/
structure InteractionRecord where
  timestamp : String
  type : String
  input : String
  output : String
  success : Bool
deriving DecidableEq

/-- Python `str.strip()` on the character list: drop ASCII whitespace
from both ends. -/
def stripList (l : List Char) : List Char :=
  ((l.dropWhile Char.isWhitespace).reverse.dropWhile Char.isWhitespace).reverse

/-- Python `str.strip()`. -/
def pyStrip (s : String) : String :=
  ⟨stripList s.toList⟩

/-- Python `s[:n]` for strings (first `n` characters). -/
def pyTake (n : Nat) (s : String) : String :=
  ⟨s.toList.take n⟩

/-- Python `s.startswith(p)`. -/
def pyStartsWith (s p : String) : Bool :=
  List.isPrefixOf p.toList s.toList

/-- Python `s.split(c)` for a one-character separator: keeps empty
pieces, `"".split(c) == [""]`. -/
def splitOnChar (c : Char) : List Char → List (List Char)
  | [] => [[]]
  | x :: xs =>
    if x = c then [] :: splitOnChar c xs
    else
      match splitOnChar c xs with
      | [] => [[x]]
      | g :: gs => (x :: g) :: gs

/-- Helper for `pySplitWs`: `acc` holds the current word reversed. -/
def pySplitWsAux : List Char → List Char → List (List Char)
  | [], acc => if acc.isEmpty then [] else [acc.reverse]
  | c :: cs, acc =>
    if c.isWhitespace then
      if acc.isEmpty then pySplitWsAux cs []
      else acc.reverse :: pySplitWsAux cs []
    else pySplitWsAux cs (c :: acc)

/-- Python `s.split()` with no argument: split on whitespace runs,
discarding empty pieces. -/
def pySplitWs (s : String) : List String :=
  (pySplitWsAux s.toList []).map fun l => ⟨l⟩

/-- Python `' '.join(parts)`. -/
def joinSpace : List String → String
  | [] => ""
  | [x] => x
  | x :: y :: xs => x ++ " " ++ joinSpace (y :: xs)

/-- One of the characters of the Python strip set `'`"\''`. -/
def isQuoteChar (c : Char) : Bool :=
  c = '`' || c = '"' || c = '\''

/-- Python `s.strip('`"\'')`: drop backticks and quotes from both
ends. -/
def pyStripChars (s : String) : String :=
  ⟨((s.toList.dropWhile isQuoteChar).reverse.dropWhile isQuoteChar).reverse⟩

/-- `CLIAgent._add_to_memory`: append the record, then keep only the
last 20 entries (`conversation_history[-20:]`). The pickle save is
elided (its errors are swallowed by the source). -/
def add_to_memory (history : List InteractionRecord)
    (ts ty inp out : String) (succ : Bool) : List InteractionRecord :=
  let h := history ++ [⟨ts, ty, inp, out, succ⟩]
  if h.length > 20 then h.drop (h.length - 20) else h

/-- The `try` block of `CLIAgent.execute_command` from
`subprocess.run` on: build the result dictionary and the memory record
(`output_summary = result.stdout[:200] if result.stdout else
result.stderr[:200]`), or catch the exception. -/
def run_branch (runner : String → Option String → RunOutcome)
    (ts : String) (history : List InteractionRecord)
    (command : String) (working_directory : Option String) :
    ExecutionResult × List InteractionRecord :=
  match runner command working_directory with
  | RunOutcome.ok stdout stderr returncode =>
    let output_summary := if stdout ≠ "" then pyTake 200 stdout else pyTake 200 stderr
    (⟨command, stdout, stderr, returncode, returncode == 0, none, none, none⟩,
     add_to_memory history ts "command" command output_summary (returncode == 0))
  | RunOutcome.exn msg =>
    (⟨command, "", msg, -1, false, none, none, none⟩,
     add_to_memory history ts "command" command msg false)

/-- `CLIAgent.execute_command(command, working_directory, force)`.
Returns the result dictionary, the updated `conversation_history`, and
the trace of external calls. -/
def execute_command (validate : String → Option String → Verdict)
    (runner : String → Option String → RunOutcome)
    (ts : String) (history : List InteractionRecord)
    (command : String) (working_directory : Option String)
    (force : Bool) :
    ExecutionResult × List InteractionRecord × List Effect :=
  if force then
    let p := run_branch runner ts history command working_directory
    (p.1, p.2, [Effect.executorCall command working_directory])
  else
    let validation := validate command working_directory
    if !validation.allowed then
      let error_msg := "Command blocked: " ++ validation.blocked_reason
      (⟨command, "", error_msg, -1, false, some true, none, some validation.risk_level⟩,
       add_to_memory history ts "command" command error_msg false,
       [Effect.validatorCall command working_directory])
    else if validation.requires_confirmation then
      (⟨command, "", "Execution paused - confirmation required", -2, false,
        none, some true, some validation.risk_level⟩,
       add_to_memory history ts "command" command
         "Execution paused - confirmation required" false,
       [Effect.validatorCall command working_directory])
    else
      let p := run_branch runner ts history command working_directory
      (p.1, p.2,
       [Effect.validatorCall command working_directory,
        Effect.executorCall command working_directory])

/-- The prefix list `prefixes_to_remove` of `CLIAgent.answer_question`. -/
def prefixes_to_remove : List String :=
  ["To check", "To see", "To find", "To get", "To list", "To show", "To display",
   "Running:", "Execute:", "Command:", "Use:", "Try:", "Run:"]

/-- The line-selection loop of `CLIAgent.answer_question`: the first
stripped line that is nonempty and starts with neither a markdown fence
nor a comment marker; `""` when no line qualifies. -/
def find_actual_command : List (List Char) → List Char
  | [] => []
  | line :: rest =>
    let l := stripList line
    if !l.isEmpty && !(List.isPrefixOf "```".toList l)
        && !(List.isPrefixOf "#".toList l) then l
    else find_actual_command rest

/-- The prefix-removal loop of `CLIAgent.answer_question`: at the first
prefix the command starts with, replace the command by everything from
its third whitespace token on when it has more than two tokens, then
stop (`break`). -/
def remove_llm_prefixes : List String → String → String
  | [], command => command
  | p :: rest, command =>
    if pyStartsWith command p then
      let parts := pySplitWs command
      if parts.length > 2 then joinSpace (parts.drop 2) else command
    else remove_llm_prefixes rest command

/-- The command cleanup of `CLIAgent.answer_question` applied to the
raw model reply: strip, select the first usable line, strip again,
remove one filler prefix, strip surrounding quotes and backticks. -/
def clean_command (raw : String) : String :=
  let command := stripList raw.toList
  let command_lines := splitOnChar '\n' command
  let actual_command := find_actual_command command_lines
  let command := stripList actual_command
  let command := remove_llm_prefixes prefixes_to_remove ⟨command⟩
  pyStripChars command

/-- The retry condition of `CLIAgent.answer_question`:
`not command or command.startswith('```') or len(command.split()) < 1`. -/
def needs_retry (command : String) : Bool :=
  command == "" || pyStartsWith command "```" || (pySplitWs command).length == 0

/-- The first prompt of `CLIAgent.answer_question`. -/
def question_prompt (platform question : String) : String :=
  "Question: " ++ question ++ "\n\nWhat single " ++ platform
    ++ " command answers this? Reply with ONLY the command:"

/-- The fallback prompt of `CLIAgent.answer_question`. -/
def retry_prompt (platform question : String) : String :=
  "What is the exact " ++ platform ++ " command to: " ++ question
    ++ "\n\nRespond with ONLY the command, no explanation:"

/-- The answer-composition prompt of `CLIAgent.answer_question`. -/
def answer_prompt (question command : String) (er : ExecutionResult) : String :=
  "Question: " ++ question ++ "\nCommand: " ++ command ++ "\nOutput: "
    ++ er.stdout ++ "\nError: " ++ er.stderr ++ "\n\nAnswer in plain English:"

/-- Command synthesis inside `CLIAgent.answer_question`: first model
call, cleanup, and the single fallback retry; `Except.error` is a
raised model-service exception. -/
def synthesized_command (model : String → ModelOutcome)
    (platform question : String) : Except String String :=
  match model (question_prompt platform question) with
  | ModelOutcome.exn msg => Except.error msg
  | ModelOutcome.ok text =>
    let command := clean_command text
    if needs_retry command then
      match model (retry_prompt platform question) with
      | ModelOutcome.exn msg => Except.error msg
      | ModelOutcome.ok t2 => Except.ok (pyStripChars (pyStrip t2))
    else Except.ok command

/-- The `except` clause of `CLIAgent.answer_question`: apology result,
`command_used = "unknown"`, `raw_output = None`, plus the memory
record. -/
def question_failure (ts : String) (history : List InteractionRecord)
    (eff : List Effect) (question msg : String) :
    AnswerResult × List InteractionRecord × List Effect :=
  let error_msg := "Sorry, I couldn't process your question: " ++ msg
  (⟨question, "unknown", error_msg, none, false⟩,
   add_to_memory history ts "question" question error_msg false,
   eff)

/-- `CLIAgent.answer_question(question, working_directory)`: synthesize
a command, execute it through `execute_command` with `force=false`,
compose a prose answer, record the interaction; any model-service
exception falls into `question_failure`. -/
def answer_question (model : String → ModelOutcome)
    (validate : String → Option String → Verdict)
    (runner : String → Option String → RunOutcome)
    (platform ts : String) (history : List InteractionRecord)
    (question : String) (working_directory : Option String) :
    AnswerResult × List InteractionRecord × List Effect :=
  match synthesized_command model platform question with
  | Except.error msg => question_failure ts history [] question msg
  | Except.ok command =>
    let out := execute_command validate runner ts history command working_directory false
    match model (answer_prompt question command out.1) with
    | ModelOutcome.exn msg => question_failure ts out.2.1 out.2.2 question msg
    | ModelOutcome.ok atext =>
      let answer := pyStrip atext
      (⟨question, command, answer, some out.1, out.1.success⟩,
       add_to_memory out.2.1 ts "question" question answer out.1.success,
       out.2.2)

/-- The first failing model call, if any, along the exact control path
`CLIAgent.answer_question` takes: synthesis, fallback retry, or answer
composition. -/
def failure_msg (model : String → ModelOutcome)
    (validate : String → Option String → Verdict)
    (runner : String → Option String → RunOutcome)
    (platform ts : String) (history : List InteractionRecord)
    (question : String) (working_directory : Option String) : Option String :=
  match synthesized_command model platform question with
  | Except.error msg => some msg
  | Except.ok command =>
    let er := (execute_command validate runner ts history command working_directory false).1
    match model (answer_prompt question command er) with
    | ModelOutcome.exn msg => some msg
    | ModelOutcome.ok _ => none

/-! Concrete fixtures used by counterexamples and witnesses. -/

/-- A verdict that blocks the command outright. -/
def block_validate : String → Option String → Verdict :=
  fun _ _ => ⟨"critical", false, false, "Dangerous deletion", "dangerous operation detected", []⟩

/-- A verdict that allows the command but requires confirmation. -/
def confirm_validate : String → Option String → Verdict :=
  fun _ _ => ⟨"high", true, true, "Risky permission change", "", []⟩

/-- A verdict that lets the command run directly. -/
def benign_validate : String → Option String → Verdict :=
  fun _ _ => ⟨"safe", true, false, "No risk detected", "", []⟩

/-- A process executor that completes with stdout `hello`. -/
def ok_runner : String → Option String → RunOutcome :=
  fun _ _ => RunOutcome.ok "hello" "" 0

/-- A process executor that completes with stdout `/root`. -/
def pwd_runner : String → Option String → RunOutcome :=
  fun _ _ => RunOutcome.ok "/root" "" 0

/-- A blocked-reason string of 250 characters. -/
def long_reason : String := ⟨List.replicate 250 'x'⟩

/-- A verdict whose blocked reason is 250 characters long. -/
def long_validate : String → Option String → Verdict :=
  fun _ _ => ⟨"critical", false, false, "Dangerous", long_reason, []⟩

/-- A fixed interaction record, used as `headD` default. -/
def rec0 : InteractionRecord := ⟨"t", "command", "ls", "ok", true⟩

/-- A model service that answers the synthesis prompt for
`what is my current directory` with `pwd` and fails on every other
prompt. -/
def c7_model : String → ModelOutcome := fun p =>
  if p == question_prompt "Linux" "what is my current directory" then ModelOutcome.ok "pwd"
  else ModelOutcome.exn "boom"

/-- A model service that always fails. -/
def boom_model : String → ModelOutcome :=
  fun _ => ModelOutcome.exn "service down"

/-! Helper lemmas. -/

/-- Dropping at most `l.length` elements from `l ++ [a]` keeps the
final `[a]`. -/
theorem drop_append_singleton {α : Type} : ∀ (n : Nat) (l : List α) (a : α), n ≤ l.length →
    (l ++ [a]).drop n = l.drop n ++ [a]
  | 0, _, _, _ => rfl
  | n+1, [], _, h => absurd h (by simp)
  | n+1, x :: xs, a, h => by
      simp only [List.cons_append, List.drop_succ_cons]
      exact drop_append_singleton n xs a (Nat.le_of_succ_le_succ h)

/-- The record just inserted by `add_to_memory` is always the last one
of the resulting history. -/
theorem add_to_memory_getLast (history : List InteractionRecord)
    (ts ty inp out : String) (succ : Bool) :
    (add_to_memory history ts ty inp out succ).getLast? = some ⟨ts, ty, inp, out, succ⟩ := by
  have hlen : (history ++ [(⟨ts, ty, inp, out, succ⟩ : InteractionRecord)]).length
      = history.length + 1 := by simp
  simp only [add_to_memory]
  split
  · next hgt =>
      rw [drop_append_singleton]
      · exact List.getLast?_concat _
      · rw [hlen] at hgt ⊢
        omega
  · exact List.getLast?_concat _

/-- Python slicing `s[:n]` returns at most `n` characters. -/
theorem pyTake_length_le (n : Nat) (s : String) : (pyTake n s).length ≤ n := by
  simp only [pyTake, String.length]
  simp [List.length_take]

/-- The prefix-removal loop never changes a command of at most two
whitespace tokens, whatever the prefix list. -/
theorem remove_llm_prefixes_short : ∀ (ps : List String) (command : String),
    (pySplitWs command).length ≤ 2 → remove_llm_prefixes ps command = command
  | [], _, _ => rfl
  | p :: rest, command, h => by
      unfold remove_llm_prefixes
      split
      · rw [if_neg]
        omega
      · exact remove_llm_prefixes_short rest command h

/-! Claim C1. -/

/-- C1 counterexample: at a concrete blocked command the returned
stderr is not the verdict's `blocked_reason` (the code prepends
"Command blocked: "), so the claim as stated fails. -/
theorem C1_counterexample :
    (execute_command block_validate ok_runner "t0" [] "rm -rf /" none false).1.stderr ≠
      (block_validate "rm -rf /" none).blocked_reason := by decide

/-- C1 (amended): for every command and cwd, if execute is called with
force=false and the safety verdict has allowed=false, the process
executor is never invoked (the effect trace holds only the validator
call) and the result has exitCode=-1, blocked=true, succeeded=false,
and stderr equal to "Command blocked: " followed by the verdict's
blockedReason. -/
theorem C1_blocked_result (validate : String → Option String → Verdict)
    (runner : String → Option String → RunOutcome)
    (ts : String) (history : List InteractionRecord)
    (command : String) (wd : Option String)
    (h : (validate command wd).allowed = false) :
    (execute_command validate runner ts history command wd false).1 =
      ⟨command, "", "Command blocked: " ++ (validate command wd).blocked_reason, -1, false,
        some true, none, some (validate command wd).risk_level⟩ ∧
    (execute_command validate runner ts history command wd false).2.2 =
      [Effect.validatorCall command wd] := by
  simp [execute_command, h]

/-- C1 witness: the amended theorem applied to a concrete blocked
command. -/
theorem C1_blocked_result_witness :
    (block_validate "rm -rf /" none).allowed = false ∧
    ((execute_command block_validate ok_runner "t0" [] "rm -rf /" none false).1 =
      ⟨"rm -rf /", "", "Command blocked: " ++ (block_validate "rm -rf /" none).blocked_reason,
        -1, false, some true, none, some (block_validate "rm -rf /" none).risk_level⟩ ∧
     (execute_command block_validate ok_runner "t0" [] "rm -rf /" none false).2.2 =
      [Effect.validatorCall "rm -rf /" none]) :=
  ⟨by decide, C1_blocked_result block_validate ok_runner "t0" [] "rm -rf /" none (by decide)⟩

/-! Claim C2. -/

/-- C2 counterexample: at a concrete confirmation-required command the
returned stderr is "Execution paused - confirmation required", not the
claimed "execution paused pending confirmation". -/
theorem C2_counterexample :
    (execute_command confirm_validate ok_runner "t0" [] "chmod -R 777 /" none false).1.stderr ≠
      "execution paused pending confirmation" := by decide

/-- C2 (amended): for every command and cwd, if execute is called with
force=false and the verdict has allowed=true and
requiresConfirmation=true, the process executor is never invoked and
the result has exitCode=-2, requiresConfirmation=true, succeeded=false,
and stderr equal to "Execution paused - confirmation required". -/
theorem C2_paused_result (validate : String → Option String → Verdict)
    (runner : String → Option String → RunOutcome)
    (ts : String) (history : List InteractionRecord)
    (command : String) (wd : Option String)
    (h1 : (validate command wd).allowed = true)
    (h2 : (validate command wd).requires_confirmation = true) :
    (execute_command validate runner ts history command wd false).1 =
      ⟨command, "", "Execution paused - confirmation required", -2, false,
        none, some true, some (validate command wd).risk_level⟩ ∧
    (execute_command validate runner ts history command wd false).2.2 =
      [Effect.validatorCall command wd] := by
  simp [execute_command, h1, h2]

/-- C2 witness: the amended theorem applied to a concrete
confirmation-required command. -/
theorem C2_paused_result_witness :
    (confirm_validate "chmod -R 777 /" none).allowed = true ∧
    (confirm_validate "chmod -R 777 /" none).requires_confirmation = true ∧
    ((execute_command confirm_validate ok_runner "t0" [] "chmod -R 777 /" none false).1 =
      ⟨"chmod -R 777 /", "", "Execution paused - confirmation required", -2, false,
        none, some true, some (confirm_validate "chmod -R 777 /" none).risk_level⟩ ∧
     (execute_command confirm_validate ok_runner "t0" [] "chmod -R 777 /" none false).2.2 =
      [Effect.validatorCall "chmod -R 777 /" none]) :=
  ⟨by decide, by decide,
   C2_paused_result confirm_validate ok_runner "t0" [] "chmod -R 777 /" none
     (by decide) (by decide)⟩

/-! Claim C3. -/

/-- C3: for every command and cwd, execute called with force=true never
invokes the risk classifier and always attempts process execution: the
effect trace is exactly one executor call and holds no validator
call. -/
theorem C3_force_skips_validation (validate : String → Option String → Verdict)
    (runner : String → Option String → RunOutcome)
    (ts : String) (history : List InteractionRecord)
    (command : String) (wd : Option String) :
    (execute_command validate runner ts history command wd true).2.2 =
      [Effect.executorCall command wd] := rfl

/-! Claim C4. -/

/-- C4: insertion into the interaction memory keeps at most 20 records;
below the cap the record is appended with no eviction (FIFO order kept),
and at the cap exactly the oldest record is evicted. -/
theorem C4_memory_capacity_fifo (history : List InteractionRecord)
    (ts ty inp out : String) (succ : Bool)
    (h20 : history.length ≤ 20) :
    (add_to_memory history ts ty inp out succ).length ≤ 20 ∧
    (history.length < 20 →
      add_to_memory history ts ty inp out succ = history ++ [⟨ts, ty, inp, out, succ⟩]) ∧
    (history.length = 20 →
      add_to_memory history ts ty inp out succ = history.drop 1 ++ [⟨ts, ty, inp, out, succ⟩]) := by
  have hlen : (history ++ [(⟨ts, ty, inp, out, succ⟩ : InteractionRecord)]).length
      = history.length + 1 := by simp
  simp only [add_to_memory]
  refine ⟨?_, ?_, ?_⟩
  · split
    · next hgt =>
        rw [List.length_drop, hlen]
        omega
    · next hle =>
        rw [hlen] at hle
        omega
  · intro hlt
    rw [if_neg]
    rw [hlen]
    omega
  · intro heq
    rw [if_pos]
    · rw [hlen, heq]
      rw [drop_append_singleton]
      · omega
    · rw [hlen, heq]
      omega

/-- C4 witness: the theorem applied to a full 20-record history. -/
theorem C4_memory_capacity_fifo_witness :
    (List.replicate 20 rec0).length ≤ 20 ∧
    ((add_to_memory (List.replicate 20 rec0) "t1" "command" "ls" "ok" true).length ≤ 20 ∧
     ((List.replicate 20 rec0).length < 20 →
       add_to_memory (List.replicate 20 rec0) "t1" "command" "ls" "ok" true =
         List.replicate 20 rec0 ++ [⟨"t1", "command", "ls", "ok", true⟩]) ∧
     ((List.replicate 20 rec0).length = 20 →
       add_to_memory (List.replicate 20 rec0) "t1" "command" "ls" "ok" true =
         (List.replicate 20 rec0).drop 1 ++ [⟨"t1", "command", "ls", "ok", true⟩])) :=
  ⟨by decide, C4_memory_capacity_fifo (List.replicate 20 rec0) "t1" "command" "ls" "ok" true
    (by decide)⟩

/-! Claim C5. -/

/-- C5 counterexample: for the raw reply "To list files: ls -la" the
cleanup does not yield "ls -la": `parts[2:]` drops only the two words
of the matched prefix "To list" and keeps the token "files:". -/
theorem C5_counterexample :
    clean_command "To list files: ls -la" ≠ "ls -la" := by decide

/-- C5 (amended): for the raw model reply "To list files: ls -la" the
command-synthesis cleanup yields exactly "files: ls -la" (the two
words of the matched prefix "To list" are discarded and the following
token "files:" is retained). -/
theorem C5_cleanup_result :
    clean_command "To list files: ls -la" = "files: ls -la" := by decide

/-! Claim C6. -/

set_option maxRecDepth 8192 in
/-- C6 counterexample: a blocked call whose verdict carries a 250
character blocked reason appends a record whose output summary is 267
characters long, exceeding the claimed 200-character bound. -/
theorem C6_counterexample :
    200 < ((execute_command long_validate ok_runner "t0" [] "rm -rf /" none
      false).2.1.headD rec0).output.length := by decide

/-- C6 (amended): only completed process executions truncate: the
record appended by a completed call (any force flag; with force=false a
verdict that allows the command without confirmation) stores
stdout truncated to 200 characters when stdout is nonempty, else stderr
truncated to 200 characters, and that summary has at most 200
characters; blocked, paused, exception and question records store
their message untruncated. -/
theorem C6_completed_summary_truncated (validate : String → Option String → Verdict)
    (runner : String → Option String → RunOutcome)
    (ts : String) (history : List InteractionRecord)
    (command : String) (wd : Option String)
    (s e : String) (rc : Int) (force : Bool)
    (hval : force = false → (validate command wd).allowed = true ∧
      (validate command wd).requires_confirmation = false)
    (hok : runner command wd = RunOutcome.ok s e rc) :
    (execute_command validate runner ts history command wd force).2.1.getLast? =
      some ⟨ts, "command", command,
        (if s ≠ "" then pyTake 200 s else pyTake 200 e), rc == 0⟩ ∧
    (if s ≠ "" then pyTake 200 s else pyTake 200 e).length ≤ 200 := by
  constructor
  · cases force with
    | true =>
        show (run_branch runner ts history command wd).2.getLast? = _
        simp only [run_branch, hok]
        exact add_to_memory_getLast _ _ _ _ _ _
    | false =>
        obtain ⟨ha, hr⟩ := hval rfl
        simp only [execute_command, ha, hr, Bool.not_true, if_neg, Bool.false_eq_true,
          if_false]
        show (run_branch runner ts history command wd).2.getLast? = _
        simp only [run_branch, hok]
        exact add_to_memory_getLast _ _ _ _ _ _
  · split
    · exact pyTake_length_le 200 s
    · exact pyTake_length_le 200 e

/-- C6 witness: the amended theorem applied to a completed benign
command. -/
theorem C6_completed_summary_truncated_witness :
    (false = false → (benign_validate "pwd" none).allowed = true ∧
      (benign_validate "pwd" none).requires_confirmation = false) ∧
    ok_runner "pwd" none = RunOutcome.ok "hello" "" 0 ∧
    ((execute_command benign_validate ok_runner "t0" [] "pwd" none false).2.1.getLast? =
      some ⟨"t0", "command", "pwd",
        (if "hello" ≠ "" then pyTake 200 "hello" else pyTake 200 ""), (0 : Int) == 0⟩ ∧
     (if "hello" ≠ "" then pyTake 200 "hello" else pyTake 200 "").length ≤ 200) :=
  ⟨by decide, by decide,
   C6_completed_summary_truncated benign_validate ok_runner "t0" [] "pwd" none
     "hello" "" 0 false (by decide) (by decide)⟩

/-! Claim C7. -/

/-- C7 counterexample: a run whose synthesis yields `pwd`, whose
execution completes successfully, and whose composition call fails,
returns `raw_output = none` - the raw execution result is not carried
in the answer. -/
theorem C7_counterexample :
    (answer_question c7_model benign_validate pwd_runner "Linux" "t0" []
      "what is my current directory" none).1.raw_output = none ∧
    (execute_command benign_validate pwd_runner "t0" []
      (clean_command "pwd") none false).1.success = true := by decide

/-- C7 (amended): for every run in which command synthesis succeeds
without needing the fallback retry, execution runs through the gate,
and the answer-composition model call fails, the returned AnswerResult
does not carry the raw execution result: rawOutput is absent,
commandUsed is "unknown", succeeded is false, and the answer is an
apology containing the failure detail. -/
theorem C7_composition_failure_result (model : String → ModelOutcome)
    (validate : String → Option String → Verdict)
    (runner : String → Option String → RunOutcome)
    (platform ts : String) (history : List InteractionRecord)
    (question : String) (wd : Option String) (text msg : String)
    (hsynth : model (question_prompt platform question) = ModelOutcome.ok text)
    (hretry : needs_retry (clean_command text) = false)
    (hcomp : model (answer_prompt question (clean_command text)
        (execute_command validate runner ts history (clean_command text) wd false).1)
      = ModelOutcome.exn msg) :
    (answer_question model validate runner platform ts history question wd).1.raw_output
      = none ∧
    (answer_question model validate runner platform ts history question wd).1.command_used
      = "unknown" ∧
    (answer_question model validate runner platform ts history question wd).1.success
      = false ∧
    (answer_question model validate runner platform ts history question wd).1.answer =
      "Sorry, I couldn't process your question: " ++ msg := by
  have hs : synthesized_command model platform question = Except.ok (clean_command text) := by
    unfold synthesized_command
    rw [hsynth]
    simp [hretry]
  unfold answer_question
  rw [hs]
  simp only [hcomp]
  exact ⟨rfl, rfl, rfl, rfl⟩

/-- C7 witness: the amended theorem applied to the concrete
composition-failure run. -/
theorem C7_composition_failure_result_witness :
    c7_model (question_prompt "Linux" "what is my current directory") = ModelOutcome.ok "pwd" ∧
    needs_retry (clean_command "pwd") = false ∧
    c7_model (answer_prompt "what is my current directory" (clean_command "pwd")
        (execute_command benign_validate pwd_runner "t0" [] (clean_command "pwd") none false).1)
      = ModelOutcome.exn "boom" ∧
    ((answer_question c7_model benign_validate pwd_runner "Linux" "t0" []
        "what is my current directory" none).1.raw_output = none ∧
     (answer_question c7_model benign_validate pwd_runner "Linux" "t0" []
        "what is my current directory" none).1.command_used = "unknown" ∧
     (answer_question c7_model benign_validate pwd_runner "Linux" "t0" []
        "what is my current directory" none).1.success = false ∧
     (answer_question c7_model benign_validate pwd_runner "Linux" "t0" []
        "what is my current directory" none).1.answer =
       "Sorry, I couldn't process your question: " ++ "boom") :=
  ⟨by decide, by decide, by decide,
   C7_composition_failure_result c7_model benign_validate pwd_runner "Linux" "t0" []
     "what is my current directory" none "pwd" "boom" (by decide) (by decide) (by decide)⟩

/-! Claim C8. -/

/-- C8: whenever any model call along the pipeline's control path
raises (synthesis, fallback retry, or answer composition - the first
failing call's message being `msg`), `answer_question` returns an
AnswerResult with succeeded=false, commandUsed="unknown", an apology
answer containing the failure detail, and rawOutput absent; no
exception escapes. -/
theorem C8_failure_apology (model : String → ModelOutcome)
    (validate : String → Option String → Verdict)
    (runner : String → Option String → RunOutcome)
    (platform ts : String) (history : List InteractionRecord)
    (question : String) (wd : Option String) (msg : String)
    (h : failure_msg model validate runner platform ts history question wd = some msg) :
    (answer_question model validate runner platform ts history question wd).1 =
      ⟨question, "unknown", "Sorry, I couldn't process your question: " ++ msg,
        none, false⟩ := by
  unfold failure_msg at h
  unfold answer_question
  cases hs : synthesized_command model platform question with
  | error m =>
      rw [hs] at h
      simp only [Option.some.injEq] at h
      subst h
      rfl
  | ok c =>
      rw [hs] at h
      simp only at h
      cases hm : model (answer_prompt question c
          (execute_command validate runner ts history c wd false).1) with
      | exn m =>
          rw [hm] at h
          simp only [Option.some.injEq] at h
          subst h
          simp only [hm]
          rfl
      | ok t =>
          rw [hm] at h
          simp at h

/-- C8 witness: the theorem applied to a model service that fails on
the synthesis call. -/
theorem C8_failure_apology_witness :
    failure_msg boom_model benign_validate ok_runner "Linux" "t1" []
      "what time is it" none = some "service down" ∧
    (answer_question boom_model benign_validate ok_runner "Linux" "t1" []
      "what time is it" none).1 =
      ⟨"what time is it", "unknown",
        "Sorry, I couldn't process your question: " ++ "service down", none, false⟩ :=
  ⟨by decide,
   C8_failure_apology boom_model benign_validate ok_runner "Linux" "t1" []
     "what time is it" none "service down" (by decide)⟩

/-! Claim C9. -/

/-- C9: for the raw model reply "```bash\nls -la\n```" the
command-synthesis cleanup yields exactly "ls -la": the fence lines and
the language tag are skipped by the line-selection loop. -/
theorem C9_fence_cleanup :
    clean_command "```bash\nls -la\n```" = "ls -la" := by decide

/-! Claim C10. -/

/-- C10: a cleaned candidate that starts with one of the filler
prefixes but splits into at most two whitespace tokens is left
completely unchanged by the prefix-removal loop, and the loop still
stops at that first matching prefix (the remaining prefix list is
irrelevant). -/
theorem C10_short_candidate_unchanged (command p : String) (rest rest' : List String)
    (hp : p ∈ prefixes_to_remove)
    (hmatch : pyStartsWith command p = true)
    (hlen : (pySplitWs command).length ≤ 2) :
    remove_llm_prefixes prefixes_to_remove command = command ∧
    remove_llm_prefixes (p :: rest) command = remove_llm_prefixes (p :: rest') command := by
  have _hmem := hp
  constructor
  · exact remove_llm_prefixes_short _ _ hlen
  · unfold remove_llm_prefixes
    rw [hmatch]
    simp

/-- C10 witness: the theorem applied to the two-token candidate
"Run: ls". -/
theorem C10_short_candidate_unchanged_witness :
    "Run:" ∈ prefixes_to_remove ∧
    pyStartsWith "Run: ls" "Run:" = true ∧
    (pySplitWs "Run: ls").length ≤ 2 ∧
    (remove_llm_prefixes prefixes_to_remove "Run: ls" = "Run: ls" ∧
     remove_llm_prefixes ("Run:" :: ["Execute:"]) "Run: ls" =
       remove_llm_prefixes ("Run:" :: []) "Run: ls") :=
  ⟨by decide, by decide, by decide,
   C10_short_candidate_unchanged "Run: ls" "Run:" ["Execute:"] []
     (by decide) (by decide) (by decide)⟩
